import Mathlib

/-!
Shallow embedding of go/vt/tabletmanager/grpctmclient/client.go (package
grpctmclient), the gRPC tablet manager client of Vitess.

Modelling conventions:
- Absolute times (`time.Time`) are `Int`; a `time.Duration` is an `Int`
  (`deadline.Sub(time.Now())` becomes integer subtraction).
- A Go `error` value returned by this package is `GoErr`: the constructor
  `GoErr.timeout` is the distinguished `timeoutError` struct type, and
  `GoErr.plain` is any other error (`fmt.Errorf` results, transport errors).
  External transport errors handed to the client by grpc.Dial or
  bsonrpc.DialHTTP are plain strings, since the package-private
  `timeoutError` type can never come from outside the package.
- Network nondeterminism is an explicit environment: whether a dial
  succeeds, which select branch fires first, what the remote call returns.
- Dial attempts are counted in a `DialTrace` so that "no connection attempt
  is made" is the statement that the trace is unchanged; the connect
  timeout handed to each dial is recorded in the trace as well.
-/

/-- Go error values produced or forwarded by the client.
`timeout m` is the package type `timeoutError` wrapping an error whose
message is `m`; `plain m` is any other error with message `m`. -/
inductive GoErr where
  | timeout (msg : String)
  | plain (msg : String)
deriving DecidableEq, Repr

/-- `err.Error()`: the message of an error value. -/
def GoErr.message : GoErr → String
  | .timeout m => m
  | .plain m => m

/-- `func (client *Client) IsTimeoutError(err error) bool`: type switch on
the `timeoutError` struct type. -/
def IsTimeoutError : GoErr → Bool
  | .timeout _ => true
  | .plain _ => false

/-- `topo.TabletInfo`, restricted to the fields the client reads:
`tablet.Alias` (via `%v` formatting, a string here) and `tablet.Addr()`. -/
structure TabletInfo where
  tabletAlias : String
  addr : String
deriving DecidableEq, Repr

/-- The context as the client observes it: the current instant
(`time.Now()`) and `ctx.Deadline()` (`none` when `ok` is false). -/
structure Ctx where
  now : Int
  deadline : Option Int
deriving DecidableEq, Repr

/-- Trace of connection attempts: how many dials were issued and which
connect timeout each one was given (`0` meaning no timeout at all). -/
structure DialTrace where
  attempts : Nat
  timeouts : List Int
deriving DecidableEq, Repr

def DialTrace.init : DialTrace := { attempts := 0, timeouts := [] }

/-- How a dial blocks: `grpc.Dial(addr, grpc.WithBlock())` versus
`grpc.Dial(addr, grpc.WithBlock(), grpc.WithTimeout(d))`. -/
inductive DialMode where
  | noTimeout
  | withTimeout (d : Int)
deriving DecidableEq, Repr

/-- A live `*grpc.ClientConn`, remembering how it was dialed. -/
structure DialConn where
  mode : DialMode
deriving DecidableEq, Repr

/-- Environment for one dial: `none` means the transport connects,
`some e` means it fails with an error whose message is `e`. -/
def NetOutcome := Option String

/-- The `grpc.Dial` call in `dial` (lines 58–62): picks the blocking mode
from `connectTimeout`, records the attempt, and either fails with the
transport error unmodified or yields a connection. -/
def grpcDial (connectTimeout : Int) (net : Option String) (tr : DialTrace) :
    DialTrace × Except GoErr DialConn :=
  let tr2 : DialTrace :=
    { attempts := tr.attempts + 1, timeouts := tr.timeouts ++ [connectTimeout] }
  match net with
  | some e => (tr2, .error (.plain e))
  | none =>
      (tr2, .ok { mode := if connectTimeout = 0 then .noTimeout
                          else .withTimeout connectTimeout })

/-- `func (client *Client) dial(ctx, tablet)` (lines 45–67): translate the
deadline to a relative connect timeout, reject an already negative one with
a `timeoutError`, otherwise dial (a zero timeout means no timeout). -/
def dial (ctx : Ctx) (tablet : TabletInfo) (net : Option String)
    (tr : DialTrace) : DialTrace × Except GoErr DialConn :=
  match ctx.deadline with
  | some d =>
      let connectTimeout := d - ctx.now
      if connectTimeout < 0 then
        (tr, .error (.timeout
          ("timeout connecting to TabletManager on " ++ tablet.tabletAlias)))
      else
        grpcDial connectTimeout net tr
  | none => grpcDial 0 net tr

/-- The `bsonrpc.DialHTTP("tcp", tablet.Addr(), connectTimeout, nil)` call:
records the attempt and its timeout, fails with the transport error
(a plain error) or yields a client. -/
def dialHTTP (connectTimeout : Int) (net : Option String) (tr : DialTrace) :
    DialTrace × Except GoErr Unit :=
  let tr2 : DialTrace :=
    { attempts := tr.attempts + 1, timeouts := tr.timeouts ++ [connectTimeout] }
  match net with
  | some e => (tr2, .error (.plain e))
  | none => (tr2, .ok ())

/-- Which branch of the `select` in `rpcCallTablet` fires first:
`<-ctx.Done()` or `<-call.Done`. -/
inductive SelectWinner where
  | ctxDone
  | callDone
deriving DecidableEq, Repr

/-- Environment for one `rpcCallTablet` invocation: the transport outcome
of `bsonrpc.DialHTTP`, which select branch fires first, whether
`ctx.Err() == context.DeadlineExceeded` when cancellation fired, the
remote call's `call.Error` message, and the reply value the rpc layer
writes into the reply destination on success. -/
structure RpcEnv (α : Type) where
  dialOutcome : Option String
  winner : SelectWinner
  ctxErrDeadlineExceeded : Bool
  callError : Option String
  replyValue : α
deriving DecidableEq, Repr

/-- Message of the expired-deadline error in `rpcCallTablet` (line 77). -/
def rpcTimeoutConnectingMsg (name tabletAlias : String) : String :=
  "timeout connecting to TabletManager." ++ name ++ " on " ++ tabletAlias

/-- Message of the dial-failure error in `rpcCallTablet` (line 82). -/
def rpcDialErrMsg (tabletAlias underlying : String) : String :=
  "RPC error for " ++ tabletAlias ++ ": " ++ underlying

/-- Message of the deadline-exceeded error in the select (line 91). -/
def timeoutWaitingMsg (name tabletAlias : String) : String :=
  "timeout waiting for TabletManager." ++ name ++ " to " ++ tabletAlias

/-- Message of the interrupted error in the select (line 93). -/
def interruptedMsg (name tabletAlias : String) : String :=
  "interrupted waiting for TabletManager." ++ name ++ " to " ++ tabletAlias

/-- Message of the remote error in the select (line 96). -/
def remoteErrMsg (tabletAlias underlying : String) : String :=
  "remote error for " ++ tabletAlias ++ ": " ++ underlying

/-- `func (client *Client) rpcCallTablet(ctx, tablet, name, args, reply)`
(lines 70–100): deadline translation and early timeout, bsonrpc dial with
the dial error wrapped, then a select racing `ctx.Done()` against
`call.Done`. Returns the populated reply on clean completion. -/
def rpcCallTablet {α : Type} (ctx : Ctx) (tablet : TabletInfo) (name : String)
    (env : RpcEnv α) (tr : DialTrace) : DialTrace × Except GoErr α :=
  let afterDeadline : Int → DialTrace × Except GoErr α := fun connectTimeout =>
    match dialHTTP connectTimeout env.dialOutcome tr with
    | (tr2, .error e) =>
        (tr2, .error (.plain (rpcDialErrMsg tablet.tabletAlias e.message)))
    | (tr2, .ok _) =>
        match env.winner with
        | .ctxDone =>
            if env.ctxErrDeadlineExceeded then
              (tr2, .error (.timeout (timeoutWaitingMsg name tablet.tabletAlias)))
            else
              (tr2, .error (.plain (interruptedMsg name tablet.tabletAlias)))
        | .callDone =>
            match env.callError with
            | some m => (tr2, .error (.plain (remoteErrMsg tablet.tabletAlias m)))
            | none => (tr2, .ok env.replyValue)
  match ctx.deadline with
  | some d =>
      let connectTimeout := d - ctx.now
      if connectTimeout < 0 then
        (tr, .error (.timeout (rpcTimeoutConnectingMsg name tablet.tabletAlias)))
      else
        afterDeadline connectTimeout
  | none => afterDeadline 0

/-!
Streaming machinery.

`HealthStream` (lines 267–303) spawns a goroutine that repeatedly calls
`stream.Recv()`: on a non-EOF error it records it in `finalErr`, on any
error (EOF included) it closes the output channel and returns, on a frame
it converts the proto frame and publishes it. A terminating execution of
that loop is therefore a finite list of received frames followed by one
terminal receive (`io.EOF` or another error); we embed the loop as a
function over that event list accumulating the delivered frames, the
number of `close` operations and `finalErr`. The goroutine never closes
the connection: the returned accessor does (`cc.Close(); return finalErr`).

`Backup` (lines 571–617) spawns a goroutine that runs a `select` over
`<-ctx.Done()` and frames arriving on the rpc stream channel; a
terminating execution is a finite list of delivered frames followed by
either a context-done event or the rpc stream closing. The goroutine
itself closes both the output channel and the rpc client on both exits.
-/

/-- One result of `stream.Recv()` in the HealthStream goroutine: a frame,
`io.EOF`, or a non-EOF receive error. -/
inductive RecvStep (α : Type) where
  | frame (f : α)
  | eofStep
  | errStep (e : String)
deriving DecidableEq, Repr

/-- State accumulated by the HealthStream goroutine: frames published on
`logstream` in order, the number of times `logstream` was closed, and the
captured `finalErr` variable. -/
structure HSState (β : Type) where
  delivered : List β
  closeCount : Nat
  finalErr : Option String
deriving DecidableEq, Repr

def HSState.init {β : Type} : HSState β :=
  { delivered := [], closeCount := 0, finalErr := none }

/-- The HealthStream receive loop (lines 282–297), parametric in the
proto-to-domain frame conversion (`topo.ProtoToTablet` etc. live in other
packages): publish each frame converted, stop at the first terminal
receive, closing the channel once and recording a non-EOF error. -/
def healthLoop {α β : Type} (conv : α → β) :
    List (RecvStep α) → HSState β → HSState β
  | [], s => s
  | .frame f :: rest, s =>
      healthLoop conv rest { s with delivered := s.delivered ++ [conv f] }
  | .eofStep :: _, s => { s with closeCount := s.closeCount + 1 }
  | .errStep e :: _, s =>
      { s with finalErr := some e, closeCount := s.closeCount + 1 }

/-- A terminating run of the HealthStream goroutine: frames `fs` received
in order, then one terminal receive (`none` = `io.EOF`, `some e` = receive
error `e`). -/
def hsRun {α β : Type} (conv : α → β) (fs : List α) (t : Option String) :
    HSState β :=
  healthLoop conv
    (fs.map RecvStep.frame ++ [match t with
      | none => RecvStep.eofStep
      | some e => RecvStep.errStep e])
    HSState.init

/-- The state of the `*grpc.ClientConn` held by a stream: how many times
`cc.Close()` has been called on it. -/
structure ConnState where
  closeCount : Nat
deriving DecidableEq, Repr

/-- The `tmclient.ErrFunc` closure HealthStream returns (lines 299–302):
`cc.Close(); return finalErr`. It reads the goroutine's final state and
closes the connection as a side effect. -/
def hsErrFunc {β : Type} (s : HSState β) (conn : ConnState) :
    Option String × ConnState :=
  (s.finalErr, { closeCount := conn.closeCount + 1 })

/-- `Backup` front matter (lines 572–583): deadline translation with early
`timeoutError`, then `bsonrpc.DialHTTP` whose failure is returned
unmodified. -/
def backupSetup (ctx : Ctx) (tablet : TabletInfo) (net : Option String)
    (tr : DialTrace) : DialTrace × Except GoErr Unit :=
  match ctx.deadline with
  | some d =>
      let connectTimeout := d - ctx.now
      if connectTimeout < 0 then
        (tr, .error (.timeout
          ("timeout connecting to TabletManager.Backup on " ++ tablet.tabletAlias)))
      else
        dialHTTP connectTimeout net tr
  | none => dialHTTP 0 net tr

/-- One iteration outcome of the `select` in the Backup goroutine:
`ctx.Done()` fired, a frame arrived on `rpcstream`, or `rpcstream` was
closed by the rpc layer (`ok == false`). -/
inductive BkEvent (γ : Type) where
  | ctxDone
  | frame (f : γ)
  | streamClosed
deriving DecidableEq, Repr

/-- State accumulated by the Backup goroutine: frames forwarded to
`logstream` in order, close count of `logstream`, number of
`rpcClient.Close()` calls, and the captured `interrupted` flag. -/
structure BkState (γ : Type) where
  delivered : List γ
  closeCount : Nat
  connReleaseCount : Nat
  interrupted : Bool
deriving DecidableEq, Repr

def BkState.init {γ : Type} : BkState γ :=
  { delivered := [], closeCount := 0, connReleaseCount := 0, interrupted := false }

/-- The Backup goroutine loop (lines 591–609): on `ctx.Done()` set
`interrupted`, close the channel, release the client, stop; on a closed
rpc stream close the channel, release the client, stop; on a frame forward
it unchanged and continue. -/
def backupLoop {γ : Type} : List (BkEvent γ) → BkState γ → BkState γ
  | [], s => s
  | .ctxDone :: _, s =>
      { s with interrupted := true, closeCount := s.closeCount + 1,
               connReleaseCount := s.connReleaseCount + 1 }
  | .streamClosed :: _, s =>
      { s with closeCount := s.closeCount + 1,
               connReleaseCount := s.connReleaseCount + 1 }
  | .frame f :: rest, s =>
      backupLoop rest { s with delivered := s.delivered ++ [f] }

/-- How a terminating Backup goroutine run ends: the caller's context was
done first, or the rpc layer closed the stream channel. -/
inductive BkTerminal where
  | ctxDone
  | streamClosed
deriving DecidableEq, Repr

/-- A terminating run of the Backup goroutine: frames `fs` forwarded in
order, then the terminal event `t`. -/
def backupRun {γ : Type} (fs : List γ) (t : BkTerminal) : BkState γ :=
  backupLoop
    (fs.map BkEvent.frame ++ [match t with
      | .ctxDone => BkEvent.ctxDone
      | .streamClosed => BkEvent.streamClosed])
    BkState.init

/-- Message of the interruption error the Backup accessor builds (line 613). -/
def backupInterruptedMsg : String := "TabletManager.Backup interrupted by context"

/-- The `tmclient.ErrFunc` closure Backup returns (lines 610–616): report
the interruption error when the `interrupted` flag was set, otherwise the
streaming call's terminal error `c.Error`. It touches no connection state
(the goroutine already released the client), so the state passes through. -/
def backupErrFunc {γ : Type} (s : BkState γ) (cError : Option String)
    (conn : ConnState) : Option String × ConnState :=
  (if s.interrupted then some backupInterruptedMsg else cError, conn)

/-- Call a stateful accessor twice in sequence, returning both results. -/
def callTwice {σ ρ : Type} (f : σ → ρ × σ) (st : σ) : ρ × ρ × σ :=
  let r1 := f st
  let r2 := f r1.2
  (r1.1, r2.1, r2.2)

/-!
Substring containment, used to state which identifiers an error message
carries. Self-contained boolean definitions so concrete instances evaluate
by `decide`.
-/

/-- Boolean list-prefix test on characters. -/
def charsPrefixOf : List Char → List Char → Bool
  | [], _ => true
  | _ :: _, [] => false
  | a :: as, b :: bs => a == b && charsPrefixOf as bs

/-- Boolean list-infix test on characters. -/
def charsInfixOf (n : List Char) : List Char → Bool
  | [] => charsPrefixOf n []
  | b :: bs => charsPrefixOf n (b :: bs) || charsInfixOf n bs

/-- `containsStr needle hay`: the string `needle` occurs contiguously in
`hay`. -/
def containsStr (needle hay : String) : Bool :=
  charsInfixOf needle.data hay.data

/-- The deadline check both `dial` and `rpcCallTablet` open with: a present
deadline whose translated connect timeout is already negative. -/
def deadlineExpired (ctx : Ctx) : Bool :=
  match ctx.deadline with
  | some d => decide (d - ctx.now < 0)
  | none => false

/-!  Theorems.  -/

theorem data_append (s t : String) : (s ++ t).data = s.data ++ t.data := rfl

theorem charsPrefixOf_append (s t : List Char) :
    charsPrefixOf s (s ++ t) = true := by
  induction s with
  | nil => rfl
  | cons a as ih => simp [charsPrefixOf, ih]

theorem charsInfixOf_nil_needle (l : List Char) : charsInfixOf [] l = true := by
  cases l with
  | nil => rfl
  | cons b bs => simp [charsInfixOf, charsPrefixOf]

theorem charsInfixOf_self_append (s post : List Char) :
    charsInfixOf s (s ++ post) = true := by
  cases s with
  | nil => simpa using charsInfixOf_nil_needle post
  | cons a as =>
      simp only [charsInfixOf, List.cons_append, Bool.or_eq_true]
      exact Or.inl (charsPrefixOf_append (a :: as) post)

theorem charsInfixOf_append (pre s post : List Char) :
    charsInfixOf s (pre ++ (s ++ post)) = true := by
  induction pre with
  | nil => simpa using charsInfixOf_self_append s post
  | cons b bs ih => simp [charsInfixOf, ih]

theorem containsStr_of_data (s hay : String) (pre post : List Char)
    (h : hay.data = pre ++ (s.data ++ post)) : containsStr s hay = true := by
  simp [containsStr, h, charsInfixOf_append]

theorem healthLoop_frames_append {α β : Type} (conv : α → β) (fs : List α)
    (steps : List (RecvStep α)) (s : HSState β) :
    healthLoop conv (fs.map RecvStep.frame ++ steps) s =
      healthLoop conv steps
        { s with delivered := s.delivered ++ fs.map conv } := by
  induction fs generalizing s with
  | nil => simp
  | cons f fs ih => simp [healthLoop, ih]

theorem backupLoop_frames_append {γ : Type} (fs : List γ)
    (evs : List (BkEvent γ)) (s : BkState γ) :
    backupLoop (fs.map BkEvent.frame ++ evs) s =
      backupLoop evs { s with delivered := s.delivered ++ fs } := by
  induction fs generalizing s with
  | nil => simp
  | cons f fs ih => simp [backupLoop, ih]

/-- C1: a context deadline strictly in the past makes both `dial` and
`rpcCallTablet` fail immediately with an error of the distinguished
`timeoutError` kind, with the dial trace unchanged: no connection attempt
is made. -/
theorem C1_expired_deadline_fails_before_dial {α : Type}
    (ctx : Ctx) (tablet : TabletInfo) (net : Option String) (tr : DialTrace)
    (name : String) (env : RpcEnv α) (d : Int)
    (hd : ctx.deadline = some d) (hpast : d < ctx.now) :
    (∃ e, dial ctx tablet net tr = (tr, Except.error e) ∧
       IsTimeoutError e = true) ∧
    (∃ e, rpcCallTablet ctx tablet name env tr = (tr, Except.error e) ∧
       IsTimeoutError e = true) := by
  have hlt : d - ctx.now < 0 := by omega
  constructor
  · refine ⟨GoErr.timeout
      ("timeout connecting to TabletManager on " ++ tablet.tabletAlias),
      by simp [dial, hd, hlt], rfl⟩
  · refine ⟨GoErr.timeout (rpcTimeoutConnectingMsg name tablet.tabletAlias),
      by simp [rpcCallTablet, hd, hlt], rfl⟩

theorem C1_witness :
    (∃ e, dial ⟨5, some 3⟩ ⟨"cell-0001", "host:1"⟩ none DialTrace.init =
        (DialTrace.init, Except.error e) ∧ IsTimeoutError e = true) ∧
    (∃ e, rpcCallTablet ⟨5, some 3⟩ ⟨"cell-0001", "host:1"⟩ "Ping"
        (RpcEnv.mk (α := Nat) none SelectWinner.callDone false none 0)
        DialTrace.init = (DialTrace.init, Except.error e) ∧
       IsTimeoutError e = true) :=
  C1_expired_deadline_fails_before_dial ⟨5, some 3⟩ ⟨"cell-0001", "host:1"⟩
    none DialTrace.init "Ping"
    (RpcEnv.mk none SelectWinner.callDone false none 0) 3 rfl (by decide)

/-- C2: once the remote call is issued (deadline not already expired, dial
succeeded), the select resolves to exactly one of four outcomes:
deadline-exceeded cancellation gives a `timeoutError` naming the operation
and endpoint, other cancellation gives the interrupted error, completion
with a remote error gives the remote error wrapping alias and underlying
message, and clean completion returns the populated reply. -/
theorem C2_select_four_outcomes {α : Type} (ctx : Ctx) (tablet : TabletInfo)
    (name : String) (env : RpcEnv α) (tr : DialTrace)
    (hnd : deadlineExpired ctx = false) (hdial : env.dialOutcome = none) :
    (env.winner = SelectWinner.ctxDone → env.ctxErrDeadlineExceeded = true →
       (rpcCallTablet ctx tablet name env tr).2 =
         Except.error (GoErr.timeout (timeoutWaitingMsg name tablet.tabletAlias))) ∧
    (env.winner = SelectWinner.ctxDone → env.ctxErrDeadlineExceeded = false →
       (rpcCallTablet ctx tablet name env tr).2 =
         Except.error (GoErr.plain (interruptedMsg name tablet.tabletAlias))) ∧
    (∀ m, env.winner = SelectWinner.callDone → env.callError = some m →
       (rpcCallTablet ctx tablet name env tr).2 =
         Except.error (GoErr.plain (remoteErrMsg tablet.tabletAlias m))) ∧
    (env.winner = SelectWinner.callDone → env.callError = none →
       (rpcCallTablet ctx tablet name env tr).2 = Except.ok env.replyValue) := by
  refine ⟨fun hw hc => ?_, fun hw hc => ?_, fun m hw hc => ?_, fun hw hc => ?_⟩
  all_goals
    cases hctx : ctx.deadline with
    | none => simp [rpcCallTablet, dialHTTP, hdial, hw, hc, hctx]
    | some d =>
        simp only [deadlineExpired, hctx, decide_eq_false_iff_not, not_lt] at hnd
        simp [rpcCallTablet, dialHTTP, hdial, hw, hc, hctx, not_lt.mpr hnd]

theorem C2_witness :
    (rpcCallTablet ⟨0, some 10⟩ ⟨"cell-0001", "host:1"⟩ "Ping"
        (RpcEnv.mk (α := Nat) none SelectWinner.ctxDone true none 7)
        DialTrace.init).2 =
      Except.error (GoErr.timeout (timeoutWaitingMsg "Ping" "cell-0001")) :=
  (C2_select_four_outcomes ⟨0, some 10⟩ ⟨"cell-0001", "host:1"⟩ "Ping"
    (RpcEnv.mk none SelectWinner.ctxDone true none 7) DialTrace.init
    (by decide) rfl).1 rfl rfl

/-- C3: on every terminating execution path of the streaming goroutines
(any finite frame sequence followed by clean end-of-stream, a receive
error, or for Backup a context cancellation or stream closure), the
consumer output channel is closed exactly once, and the underlying
connection is released exactly once: by the Backup goroutine itself, and
for HealthStream by the single accessor call of the consumer protocol. -/
theorem C3_close_once_release_once {α β γ : Type} (conv : α → β)
    (fs : List α) (t : Option String) (conn : ConnState)
    (gs : List γ) (bt : BkTerminal) :
    (hsRun conv fs t).closeCount = 1 ∧
    (hsErrFunc (hsRun conv fs t) conn).2.closeCount = conn.closeCount + 1 ∧
    (backupRun gs bt).closeCount = 1 ∧
    (backupRun gs bt).connReleaseCount = 1 := by
  refine ⟨?_, rfl, ?_, ?_⟩
  · cases t with
    | none => simp [hsRun, healthLoop_frames_append, healthLoop, HSState.init]
    | some e => simp [hsRun, healthLoop_frames_append, healthLoop, HSState.init]
  · cases bt with
    | ctxDone => simp [backupRun, backupLoop_frames_append, backupLoop, BkState.init]
    | streamClosed => simp [backupRun, backupLoop_frames_append, backupLoop, BkState.init]
  · cases bt with
    | ctxDone => simp [backupRun, backupLoop_frames_append, backupLoop, BkState.init]
    | streamClosed => simp [backupRun, backupLoop_frames_append, backupLoop, BkState.init]

/-- C4: a stream of frames followed by clean end-of-stream delivers exactly
those frames, converted, in receipt order, closes the channel once, leaves
`finalErr` unset, and the completion accessor then returns no error. -/
theorem C4_clean_end_of_stream {α β : Type} (conv : α → β) (fs : List α)
    (conn : ConnState) :
    (hsRun conv fs none).delivered = fs.map conv ∧
    (hsRun conv fs none).closeCount = 1 ∧
    (hsRun conv fs none).finalErr = none ∧
    (hsErrFunc (hsRun conv fs none) conn).1 = none := by
  refine ⟨?_, ?_, ?_, ?_⟩ <;>
    simp [hsRun, healthLoop_frames_append, healthLoop, hsErrFunc, HSState.init]

/-- C5: if cancellation fires before the Backup goroutine observes
end-of-stream, the channel is closed once, the rpc client is released
once, the `interrupted` flag is set, and the completion accessor reports
the interruption error regardless of the transport-level terminal error. -/
theorem C5_backup_cancellation {γ : Type} (fs : List γ) (conn : ConnState)
    (cError : Option String) :
    (backupRun fs BkTerminal.ctxDone).closeCount = 1 ∧
    (backupRun fs BkTerminal.ctxDone).connReleaseCount = 1 ∧
    (backupRun fs BkTerminal.ctxDone).interrupted = true ∧
    (backupErrFunc (backupRun fs BkTerminal.ctxDone) cError conn).1 =
      some backupInterruptedMsg := by
  have hrun : backupRun fs BkTerminal.ctxDone =
      { delivered := fs, closeCount := 1, connReleaseCount := 1,
        interrupted := true } := by
    simp [backupRun, backupLoop_frames_append, backupLoop, BkState.init]
  simp [hrun, backupErrFunc]

/-- C6 counterexample: in `rpcCallTablet` a dial failure is NOT surfaced
unmodified — with the transport failing with message "connection refused"
(and no deadline, so the translator rejected nothing), the caller receives
the rewrapped "RPC error for ..." error, not the original one. -/
theorem C6_counterexample :
    (rpcCallTablet ⟨0, none⟩ ⟨"cell-0001", "host:1"⟩ "Ping"
        (RpcEnv.mk (α := Nat) (some "connection refused")
          SelectWinner.callDone false none 0) DialTrace.init).2 =
      Except.error (GoErr.plain
        "RPC error for cell-0001: connection refused") ∧
    (rpcCallTablet ⟨0, none⟩ ⟨"cell-0001", "host:1"⟩ "Ping"
        (RpcEnv.mk (α := Nat) (some "connection refused")
          SelectWinner.callDone false none 0) DialTrace.init).2 ≠
      Except.error (GoErr.plain "connection refused") := by
  have h1 : (rpcCallTablet ⟨0, none⟩ ⟨"cell-0001", "host:1"⟩ "Ping"
      (RpcEnv.mk (α := Nat) (some "connection refused")
        SelectWinner.callDone false none 0) DialTrace.init).2 =
      Except.error (GoErr.plain
        "RPC error for cell-0001: connection refused") := rfl
  refine ⟨h1, ?_⟩
  rw [h1]
  intro h
  exact absurd (GoErr.plain.inj (Except.error.inj h)) (by decide)

/-- C6 amended: a dial failure is never reclassified as a timeout; `dial`
and `Backup` surface the transport error unmodified, while `rpcCallTablet`
surfaces it rewrapped in a non-timeout "RPC error" message carrying the
endpoint alias and the underlying message. -/
theorem C6_amended_dial_failure_not_reclassified {α : Type} (ctx : Ctx)
    (tablet : TabletInfo) (e : String) (tr : DialTrace) (name : String)
    (w : SelectWinner) (b : Bool) (ce : Option String) (rv : α)
    (hnd : deadlineExpired ctx = false) :
    (dial ctx tablet (some e) tr).2 = Except.error (GoErr.plain e) ∧
    (backupSetup ctx tablet (some e) tr).2 = Except.error (GoErr.plain e) ∧
    (rpcCallTablet ctx tablet name (RpcEnv.mk (some e) w b ce rv) tr).2 =
      Except.error (GoErr.plain (rpcDialErrMsg tablet.tabletAlias e)) ∧
    IsTimeoutError (GoErr.plain e) = false ∧
    IsTimeoutError (GoErr.plain (rpcDialErrMsg tablet.tabletAlias e)) = false := by
  refine ⟨?_, ?_, ?_, rfl, rfl⟩ <;>
    cases hctx : ctx.deadline with
    | none => simp [dial, backupSetup, rpcCallTablet, grpcDial, dialHTTP,
        GoErr.message, hctx]
    | some d =>
        simp only [deadlineExpired, hctx, decide_eq_false_iff_not, not_lt] at hnd
        simp [dial, backupSetup, rpcCallTablet, grpcDial, dialHTTP,
          GoErr.message, hctx, not_lt.mpr hnd]

theorem C6_amended_witness :
    (dial ⟨0, some 10⟩ ⟨"cell-0001", "host:1"⟩ (some "connection refused")
        DialTrace.init).2 =
      Except.error (GoErr.plain "connection refused") ∧
    (backupSetup ⟨0, some 10⟩ ⟨"cell-0001", "host:1"⟩
        (some "connection refused") DialTrace.init).2 =
      Except.error (GoErr.plain "connection refused") ∧
    (rpcCallTablet ⟨0, some 10⟩ ⟨"cell-0001", "host:1"⟩ "Sleep"
        (RpcEnv.mk (α := Nat) (some "connection refused")
          SelectWinner.callDone false none 0) DialTrace.init).2 =
      Except.error (GoErr.plain (rpcDialErrMsg "cell-0001" "connection refused")) ∧
    IsTimeoutError (GoErr.plain "connection refused") = false ∧
    IsTimeoutError (GoErr.plain (rpcDialErrMsg "cell-0001" "connection refused"))
      = false :=
  C6_amended_dial_failure_not_reclassified ⟨0, some 10⟩ ⟨"cell-0001", "host:1"⟩
    "connection refused" DialTrace.init "Sleep" SelectWinner.callDone false
    none 0 (by decide)

theorem containsStr_middle (pre s post : String) :
    containsStr s (pre ++ s ++ post) = true :=
  containsStr_of_data s _ pre.data post.data
    (by simp [data_append, List.append_assoc])

/-- C7 counterexample: the synchronous invoker's remote error does NOT
carry the operation name — a `Ping` call completing with remote message
"boom" yields "remote error for cell-0001: boom", in which "Ping" does
not occur. -/
theorem C7_counterexample :
    (rpcCallTablet ⟨0, none⟩ ⟨"cell-0001", "host:1"⟩ "Ping"
        (RpcEnv.mk (α := Nat) none SelectWinner.callDone false (some "boom") 0)
        DialTrace.init).2 =
      Except.error (GoErr.plain (remoteErrMsg "cell-0001" "boom")) ∧
    containsStr "Ping" (remoteErrMsg "cell-0001" "boom") = false :=
  ⟨rfl, by decide⟩

/-- C7 amended: every error the client returns is either of the
distinguished `timeoutError` kind or a plain wrapped error; the
synchronous invoker's timeout and interrupted messages carry both the
operation name and the endpoint alias, while its remote-error message
carries the endpoint alias and the underlying remote message but not, in
general, the operation name. -/
theorem C7_amended_error_annotations (name tabletAlias m : String) :
    containsStr name (timeoutWaitingMsg name tabletAlias) = true ∧
    containsStr tabletAlias (timeoutWaitingMsg name tabletAlias) = true ∧
    containsStr name (interruptedMsg name tabletAlias) = true ∧
    containsStr tabletAlias (interruptedMsg name tabletAlias) = true ∧
    containsStr name (rpcTimeoutConnectingMsg name tabletAlias) = true ∧
    containsStr tabletAlias (rpcTimeoutConnectingMsg name tabletAlias) = true ∧
    containsStr tabletAlias (remoteErrMsg tabletAlias m) = true ∧
    containsStr m (remoteErrMsg tabletAlias m) = true ∧
    IsTimeoutError (GoErr.timeout (timeoutWaitingMsg name tabletAlias)) = true ∧
    IsTimeoutError (GoErr.plain (remoteErrMsg tabletAlias m)) = false := by
  refine ⟨?_, ?_, ?_, ?_, ?_, ?_, ?_, ?_, rfl, rfl⟩
  · exact containsStr_of_data name _ ("timeout waiting for TabletManager.").data
      ((" to ").data ++ tabletAlias.data)
      (by simp [timeoutWaitingMsg, data_append, List.append_assoc])
  · exact containsStr_of_data tabletAlias _
      (("timeout waiting for TabletManager.").data ++ name.data ++ (" to ").data)
      [] (by simp [timeoutWaitingMsg, data_append, List.append_assoc])
  · exact containsStr_of_data name _
      ("interrupted waiting for TabletManager.").data
      ((" to ").data ++ tabletAlias.data)
      (by simp [interruptedMsg, data_append, List.append_assoc])
  · exact containsStr_of_data tabletAlias _
      (("interrupted waiting for TabletManager.").data ++ name.data
        ++ (" to ").data)
      [] (by simp [interruptedMsg, data_append, List.append_assoc])
  · exact containsStr_of_data name _
      ("timeout connecting to TabletManager.").data
      ((" on ").data ++ tabletAlias.data)
      (by simp [rpcTimeoutConnectingMsg, data_append, List.append_assoc])
  · exact containsStr_of_data tabletAlias _
      (("timeout connecting to TabletManager.").data ++ name.data
        ++ (" on ").data)
      [] (by simp [rpcTimeoutConnectingMsg, data_append, List.append_assoc])
  · exact containsStr_of_data tabletAlias _ ("remote error for ").data
      ((": ").data ++ m.data)
      (by simp [remoteErrMsg, data_append, List.append_assoc])
  · exact containsStr_of_data m _
      (("remote error for ").data ++ tabletAlias.data ++ (": ").data) []
      (by simp [remoteErrMsg, data_append, List.append_assoc])

/-- C8: `IsTimeoutError` holds exactly on the distinguished `timeoutError`
kind; every error of the deadline-already-expired and deadline-exceeded
paths satisfies it, and interrupted, remote and connect errors do not. -/
theorem C8_is_timeout_error_classification :
    (∀ e, IsTimeoutError e = true ↔ ∃ m, e = GoErr.timeout m) ∧
    (∀ (ctx : Ctx) (tablet : TabletInfo) (net : Option String)
       (tr : DialTrace) (d : Int), ctx.deadline = some d → d < ctx.now →
       ∃ m, (dial ctx tablet net tr).2 = Except.error (GoErr.timeout m)) ∧
    (∀ (ctx : Ctx) (tablet : TabletInfo) (name : String)
       (env : RpcEnv Nat) (tr : DialTrace),
       deadlineExpired ctx = false → env.dialOutcome = none →
       env.winner = SelectWinner.ctxDone → env.ctxErrDeadlineExceeded = true →
       ∃ m, (rpcCallTablet ctx tablet name env tr).2 =
         Except.error (GoErr.timeout m)) ∧
    (∀ name tabletAlias,
       IsTimeoutError (GoErr.plain (interruptedMsg name tabletAlias)) = false) ∧
    (∀ tabletAlias m,
       IsTimeoutError (GoErr.plain (remoteErrMsg tabletAlias m)) = false) ∧
    (∀ (ctx : Ctx) (tablet : TabletInfo) (e : String) (tr : DialTrace),
       deadlineExpired ctx = false →
       ∃ msg, (dial ctx tablet (some e) tr).2 = Except.error (GoErr.plain msg) ∧
         IsTimeoutError (GoErr.plain msg) = false) := by
  refine ⟨?_, ?_, ?_, fun _ _ => rfl, fun _ _ => rfl, ?_⟩
  · intro e
    cases e with
    | timeout m => simp [IsTimeoutError]
    | plain m => simp [IsTimeoutError]
  · intro ctx tablet net tr d hd hpast
    have hlt : d - ctx.now < 0 := by omega
    exact ⟨"timeout connecting to TabletManager on " ++ tablet.tabletAlias,
      by simp [dial, hd, hlt]⟩
  · intro ctx tablet name env tr hnd hdial hw hc
    refine ⟨timeoutWaitingMsg name tablet.tabletAlias, ?_⟩
    cases hctx : ctx.deadline with
    | none => simp [rpcCallTablet, dialHTTP, hdial, hw, hc, hctx]
    | some d =>
        simp only [deadlineExpired, hctx, decide_eq_false_iff_not, not_lt] at hnd
        simp [rpcCallTablet, dialHTTP, hdial, hw, hc, hctx, not_lt.mpr hnd]
  · intro ctx tablet e tr hnd
    refine ⟨e, ?_, rfl⟩
    cases hctx : ctx.deadline with
    | none => simp [dial, grpcDial, hctx]
    | some d =>
        simp only [deadlineExpired, hctx, decide_eq_false_iff_not, not_lt] at hnd
        simp [dial, grpcDial, hctx, not_lt.mpr hnd]

theorem C8_witness :
    (IsTimeoutError (GoErr.timeout "x") = true ↔
      ∃ m, GoErr.timeout "x" = GoErr.timeout m) ∧
    (∃ m, (dial ⟨5, some 3⟩ ⟨"cell-0001", "host:1"⟩ none DialTrace.init).2 =
      Except.error (GoErr.timeout m)) ∧
    (∃ m, (rpcCallTablet ⟨0, some 10⟩ ⟨"cell-0001", "host:1"⟩ "Ping"
        (RpcEnv.mk (α := Nat) none SelectWinner.ctxDone true none 0)
        DialTrace.init).2 = Except.error (GoErr.timeout m)) ∧
    IsTimeoutError (GoErr.plain (interruptedMsg "Ping" "cell-0001")) = false ∧
    IsTimeoutError (GoErr.plain (remoteErrMsg "cell-0001" "boom")) = false ∧
    (∃ msg, (dial ⟨0, some 10⟩ ⟨"cell-0001", "host:1"⟩
        (some "connection refused") DialTrace.init).2 =
        Except.error (GoErr.plain msg) ∧
      IsTimeoutError (GoErr.plain msg) = false) := by
  obtain ⟨h1, h2, h3, h4, h5, h6⟩ := C8_is_timeout_error_classification
  exact ⟨h1 (GoErr.timeout "x"),
    h2 ⟨5, some 3⟩ ⟨"cell-0001", "host:1"⟩ none DialTrace.init 3 rfl (by decide),
    h3 ⟨0, some 10⟩ ⟨"cell-0001", "host:1"⟩ "Ping"
      (RpcEnv.mk none SelectWinner.ctxDone true none 0) DialTrace.init
      (by decide) rfl rfl rfl,
    h4 "Ping" "cell-0001", h5 "cell-0001" "boom",
    h6 ⟨0, some 10⟩ ⟨"cell-0001", "host:1"⟩ "connection refused"
      DialTrace.init (by decide)⟩

/-- C9: after the stream has terminated (the channel has been closed),
calling the completion accessor twice in sequence yields the same terminal
result each time, for both HealthStream and Backup. -/
theorem C9_accessor_idempotent {α β γ : Type} (conv : α → β) (fs : List α)
    (t : Option String) (gs : List γ) (bt : BkTerminal)
    (cError : Option String) (conn conn2 : ConnState) :
    (callTwice (hsErrFunc (hsRun conv fs t)) conn).1 =
      (callTwice (hsErrFunc (hsRun conv fs t)) conn).2.1 ∧
    (callTwice (backupErrFunc (backupRun gs bt) cError) conn2).1 =
      (callTwice (backupErrFunc (backupRun gs bt) cError) conn2).2.1 := by
  exact ⟨rfl, rfl⟩

/-- C10: a deadline exactly equal to the current time computes a zero
connect timeout, so the call proceeds — `dial` and `rpcCallTablet` behave
exactly as in the no-deadline case, the grpc dial blocks with no timeout
option, and the recorded connect timeout is 0 (indefinite blocking), with
a connection attempt made rather than a TimeoutError returned. -/
theorem C10_zero_remaining_time_means_no_timeout {α : Type} (now : Int)
    (tablet : TabletInfo) (net : Option String) (tr : DialTrace)
    (name : String) (env : RpcEnv α) :
    dial ⟨now, some now⟩ tablet net tr = dial ⟨now, none⟩ tablet net tr ∧
    (dial ⟨now, some now⟩ tablet none tr).2 =
      Except.ok ⟨DialMode.noTimeout⟩ ∧
    (dial ⟨now, some now⟩ tablet net tr).1.attempts = tr.attempts + 1 ∧
    (dial ⟨now, some now⟩ tablet net tr).1.timeouts = tr.timeouts ++ [0] ∧
    rpcCallTablet ⟨now, some now⟩ tablet name env tr =
      rpcCallTablet ⟨now, none⟩ tablet name env tr := by
  refine ⟨?_, ?_, ?_, ?_, ?_⟩ <;>
    cases net with
    | none => simp [dial, rpcCallTablet, grpcDial, dialHTTP, sub_self]
    | some e => simp [dial, rpcCallTablet, grpcDial, dialHTTP, sub_self]
